import Mathlib

/-!
Shallow embedding of `src/codigo_prueba_rastreo.py`, a prototype AML
(anti-money-laundering) analysis.  The Python file concatenates two scripts
over the same sample data:

* script 1 (lines 1-189): builds a directed transaction graph whose edge
  weight is `1000 / (monto * frecuencia)`, runs Dijkstra from `Cuenta_A` to
  `Offshore_X`, and computes per-account risk entries (inverse distance to
  the high-risk accounts, excluding the high-risk accounts themselves);
* script 2 (lines 191-342): rebuilds the same graph, computes for every
  account (high-risk ones included) the minimum Dijkstra distance to the
  high-risk set, classifies an account as fraud when that distance is below
  `THRESHOLD = 0.05`, and evaluates the predictions against hardcoded
  ground-truth labels with a confusion matrix.

Python numbers are embedded as `ℚ` (exact arithmetic; the sample values are
integers and the derived weights are rationals).  Python's float infinity
(`float("inf")`, used as "no path") is embedded as `none : Option ℚ`, with
`inf < t` false for every finite `t`, matching IEEE comparison.
`nx.dijkstra_path` / `nx.dijkstra_path_length` are embedded as the
minimum-weight simple path between the endpoints and its weight (which is
what Dijkstra computes on non-negative weights), ties broken by enumeration
order; the sample-data theorems additionally prove the minimiser unique, so
the tie-break is irrelevant there.
-/

namespace AML

/-- The nine account identifiers (source lines 16-17, repeated verbatim at
lines 203-206 of the second script as `accounts2` below). -/
def accounts : List String :=
  ["Cuenta_A", "Cuenta_B", "Cuenta_C", "Cuenta_D", "Cuenta_E",
   "Cuenta_F", "Cuenta_G", "Offshore_X", "Offshore_Y"]

/-- The ten sample transactions `(origen, destino, monto, frecuencia)`
(source lines 19-30; repeated verbatim at lines 227-238). -/
def transactions : List (String × String × ℚ × ℚ) :=
  [("Cuenta_A", "Cuenta_B", 50000, 5),
   ("Cuenta_B", "Cuenta_C", 45000, 4),
   ("Cuenta_C", "Offshore_X", 40000, 3),
   ("Cuenta_A", "Cuenta_D", 10000, 1),
   ("Cuenta_D", "Cuenta_E", 9000, 1),
   ("Cuenta_E", "Cuenta_F", 8000, 1),
   ("Cuenta_F", "Offshore_X", 7000, 1),
   ("Cuenta_A", "Cuenta_G", 30000, 2),
   ("Cuenta_G", "Offshore_Y", 28000, 2),
   ("Offshore_X", "Offshore_Y", 20000, 1)]

/-- `suspicion_score = monto * frecuencia` (source lines 47 and 254). -/
def suspicion_score (monto frecuencia : ℚ) : ℚ := monto * frecuencia

/-- `weight = 1000 / suspicion_score` (source lines 51 and 258).  In `ℚ`
division by zero yields `0`, but `add_edge` below reproduces the Python
behaviour of raising on a zero divisor, so this formula is only ever used
with a non-zero score in the embedded scripts. -/
def weight (monto frecuencia : ℚ) : ℚ := 1000 / suspicion_score monto frecuencia

/-- Attributes stored on an edge by the first script's `G.add_edge`
(source lines 53-60): `weight`, `monto`, `frecuencia`, `suspicion_score`. -/
structure EdgeData where
  weight : ℚ
  monto : ℚ
  frecuencia : ℚ
  suspicion_score : ℚ
deriving DecidableEq, Repr

/-- One iteration of the edge-construction loop (source lines 46-60, and
lines 252-261 in the second script): compute `suspicion_score` and
`weight = 1000 / suspicion_score`, then insert the edge.  The loop performs
no validation whatsoever; the only failure mode is Python's own
`ZeroDivisionError` when `monto * frecuencia = 0`, embedded as the `error`
branch.  Negative inputs are accepted and produce a negative weight. -/
def add_edge (monto frecuencia : ℚ) : Except String EdgeData :=
  if suspicion_score monto frecuencia = 0 then
    Except.error "ZeroDivisionError"
  else
    Except.ok
      { weight := weight monto frecuencia
        monto := monto
        frecuencia := frecuencia
        suspicion_score := suspicion_score monto frecuencia }

/-- The first script's graph: one attributed edge per sample transaction
(source lines 39-60).  Every sample transaction has positive
`monto * frecuencia`, so each `add_edge` call takes the `ok` branch and
stores exactly these attributes. -/
def G1 : List (String × String × EdgeData) :=
  transactions.map (fun t =>
    (t.1, t.2.1,
     { weight := weight t.2.2.1 t.2.2.2
       monto := t.2.2.1
       frecuencia := t.2.2.2
       suspicion_score := suspicion_score t.2.2.1 t.2.2.2 }))

/-- The weighted view of the first script's graph: the `weight` attribute is
all that `nx.dijkstra_path` and `nx.dijkstra_path_length` read. -/
def weightedEdges1 : List (String × String × ℚ) :=
  G1.map (fun e => (e.1, e.2.1, e.2.2.weight))

/-- Weight of the directed edge `a → b`, if present.  The fold keeps the
last matching entry, mirroring `nx.DiGraph.add_edge`'s overwrite semantics
for duplicate `(origin, destination)` pairs. -/
def edgeWeight (E : List (String × String × ℚ)) (a b : String) : Option ℚ :=
  E.foldl (fun acc e => if e.1 = a ∧ e.2.1 = b then some e.2.2 else acc) none

/-- Successor nodes of `a` (with edge weights), in edge-list order. -/
def succs (E : List (String × String × ℚ)) (a : String) : List (String × ℚ) :=
  E.filterMap (fun e => if e.1 = a then some (e.2.1, e.2.2) else none)

/-- All simple (node-repetition-free) directed paths from `s` to `tgt`, by
depth-first enumeration; `visited` holds the nodes already on the current
path and `fuel` bounds the recursion depth. -/
def simplePathsAux (E : List (String × String × ℚ)) (tgt : String) :
    ℕ → String → List String → List (List String)
  | 0, _, _ => []
  | fuel + 1, s, visited =>
    if s = tgt then [[s]]
    else (succs E s).flatMap (fun v =>
      if v.1 ∈ visited then []
      else (simplePathsAux E tgt fuel v.1 (v.1 :: visited)).map (fun p => s :: p))

/-- All simple directed paths from `s` to `t`.  A simple path traverses
pairwise-distinct edges, hence at most `E.length + 1` nodes, so the fuel
`E.length + 1` makes the enumeration complete. -/
def simplePaths (E : List (String × String × ℚ)) (s t : String) : List (List String) :=
  simplePathsAux E t (E.length + 1) s [s]

/-- Total weight of a node sequence: the sum of the weights of its
consecutive edges; `none` if some required edge is absent (never the case
for enumerated paths) or the sequence is empty. -/
def pathWeight (E : List (String × String × ℚ)) : List String → Option ℚ
  | [] => none
  | [_] => some 0
  | a :: b :: rest => do
    let w ← edgeWeight E a b
    let rw ← pathWeight E (b :: rest)
    pure (w + rw)

/-- Minimum-weight simple path from `s` to `t` together with its weight,
ties broken in favour of the first enumerated path; `none` when no directed
path exists.  This is the embedding of Dijkstra's algorithm (which computes
exactly this on non-negative weights). -/
def bestPath (E : List (String × String × ℚ)) (s t : String) :
    Option (List String × ℚ) :=
  (simplePaths E s t).foldl (fun best p =>
    match pathWeight E p with
    | none => best
    | some w =>
      match best with
      | none => some (p, w)
      | some (bp, bw) => if w < bw then some (p, w) else some (bp, bw)) none

/-- Embedding of `nx.dijkstra_path G s t` (source line 73); `none` embeds
the `NetworkXNoPath` exception. -/
def dijkstra_path (E : List (String × String × ℚ)) (s t : String) :
    Option (List String) :=
  (bestPath E s t).map (fun r => r.1)

/-- Embedding of `nx.dijkstra_path_length G s t` (source lines 75, 132 and
276); `none` embeds the `NetworkXNoPath` exception. -/
def dijkstra_path_length (E : List (String × String × ℚ)) (s t : String) :
    Option ℚ :=
  (bestPath E s t).map (fun r => r.2)

/-- The `monto` attribute of edge `a → b` in the attributed graph
(`G.get_edge_data(src, dst)["monto"]`, source lines 86-87). -/
def montoOf (G : List (String × String × EdgeData)) (a b : String) : Option ℚ :=
  G.foldl (fun acc e => if e.1 = a ∧ e.2.1 = b then some e.2.2.monto else acc) none

/-- Sum of the `monto` attributes along a path's consecutive edges
(the `total_amount` accumulation of source lines 82-90). -/
def total_amount (G : List (String × String × EdgeData)) : List String → Option ℚ
  | a :: b :: rest => do
    let m ← montoOf G a b
    let r ← total_amount G (b :: rest)
    pure (m + r)
  | _ => some 0

/-- The `try` block of the path-finding stage (source lines 70-94): on
success it binds `path`, `length` and `total_amount`; on `NetworkXNoPath`
(embedded as `none`) the handler at lines 96-97 only prints, leaving those
three names unbound. -/
def pathStage (E : List (String × String × ℚ)) (G : List (String × String × EdgeData))
    (s t : String) : Option (List String × ℚ × ℚ) :=
  match bestPath E s t with
  | none => none
  | some (p, l) =>
    match total_amount G p with
    | none => none
    | some m => some (p, l, m)

/-- The conclusions stage (source lines 164-168): it reads `path`, `length`
and `total_amount` unconditionally, outside the `try` block.  When the
path-finding stage took the `NetworkXNoPath` handler those names were never
assigned, so Python raises `NameError` here; the `error` branch embeds that
crash. -/
def conclusions (r : Option (List String × ℚ × ℚ)) :
    Except String (List String × ℚ × ℚ) :=
  match r with
  | none => Except.error "NameError: name 'path' is not defined"
  | some x => Except.ok x

/-- The high-risk account list (source line 119; repeated at line 265). -/
def high_risk_accounts : List String := ["Offshore_X", "Offshore_Y"]

/-- One entry of the first script's `risk_scores` dictionary (source lines
140-150): `puntaje_riesgo`, `cuenta_cercana`, `distancia`; the value
`float("inf")` of `distancia` is embedded as `none`. -/
structure RiskEntry where
  puntaje_riesgo : ℚ
  cuenta_cercana : Option String
  distancia : Option ℚ
deriving DecidableEq, Repr

/-- The inner loop of the first script's risk scoring (source lines
127-137): fold over the high-risk accounts, tracking `(min_distance,
closest_account)`, starting from `(inf, None)` = `(none, none)`; a
`NetworkXNoPath` (`none`) result is skipped (`pass`), and a finite distance
strictly below the current minimum replaces it (any finite distance is
below the initial `inf`). -/
def minDistStep1 (E : List (String × String × ℚ)) (a : String)
    (md : Option ℚ × Option String) (r : String) : Option ℚ × Option String :=
  match dijkstra_path_length E a r with
  | none => md
  | some d =>
    match md.1 with
    | none => (some d, some r)
    | some m => if d < m then (some d, some r) else md

/-- The first script's inner loop as a fold of `minDistStep1` over the
high-risk list, starting from `(inf, None)` = `(none, none)`. -/
def minDistLoop (E : List (String × String × ℚ)) (hr : List String) (a : String) :
    Option ℚ × Option String :=
  hr.foldl (minDistStep1 E a) (none, none)

/-- The body of the first script's risk loop for one account (source lines
123-150): high-risk accounts are skipped (`continue`), a finite minimum
yields `{1000 / min_distance, closest_account, min_distance}`, and no path
to any high-risk account yields `{0, None, inf}`. -/
def riskEntry1 (E : List (String × String × ℚ)) (hr : List String) (a : String) :
    Option (String × RiskEntry) :=
  if a ∈ hr then none
  else
    match minDistLoop E hr a with
    | (some m, closest) =>
      some (a, { puntaje_riesgo := 1000 / m, cuenta_cercana := closest, distancia := some m })
    | (none, _) =>
      some (a, { puntaje_riesgo := 0, cuenta_cercana := none, distancia := none })

/-- The first script's `risk_scores` dictionary (source lines 122-150), as
an association list in account order. -/
def riskScores1 (E : List (String × String × ℚ)) (accts hr : List String) :
    List (String × RiskEntry) :=
  accts.filterMap (riskEntry1 E hr)

/-- The second script's account list (source lines 203-206), identical to
the first script's. -/
def accounts2 : List String :=
  ["Cuenta_A", "Cuenta_B", "Cuenta_C", "Cuenta_D", "Cuenta_E",
   "Cuenta_F", "Cuenta_G", "Offshore_X", "Offshore_Y"]

/-- The second script's ground-truth labels (source lines 211-221):
`0` = clean (`Libre`), `1` = fraud. -/
def ground_truth : List (String × ℕ) :=
  [("Cuenta_A", 0), ("Cuenta_B", 1), ("Cuenta_C", 1), ("Cuenta_D", 0),
   ("Cuenta_E", 0), ("Cuenta_F", 0), ("Cuenta_G", 1), ("Offshore_X", 1),
   ("Offshore_Y", 1)]

/-- The ground-truth dictionary as a function; every account of the sample
is a key, so the `getD` default is never consulted. -/
def gtFun (a : String) : ℕ := (ground_truth.lookup a).getD 0

/-- The second script's transaction list (source lines 227-238), identical
to the first script's. -/
def transactions2 : List (String × String × ℚ × ℚ) :=
  [("Cuenta_A", "Cuenta_B", 50000, 5),
   ("Cuenta_B", "Cuenta_C", 45000, 4),
   ("Cuenta_C", "Offshore_X", 40000, 3),
   ("Cuenta_A", "Cuenta_D", 10000, 1),
   ("Cuenta_D", "Cuenta_E", 9000, 1),
   ("Cuenta_E", "Cuenta_F", 8000, 1),
   ("Cuenta_F", "Offshore_X", 7000, 1),
   ("Cuenta_A", "Cuenta_G", 30000, 2),
   ("Cuenta_G", "Offshore_Y", 28000, 2),
   ("Offshore_X", "Offshore_Y", 20000, 1)]

/-- The second script's graph (source lines 243-261): one edge per
transaction carrying `weight` and `suspicion_score`. -/
def G2 : List (String × String × ℚ × ℚ) :=
  transactions2.map (fun t =>
    (t.1, t.2.1, weight t.2.2.1 t.2.2.2, suspicion_score t.2.2.1 t.2.2.2))

/-- The weighted view of the second script's graph, as read by
`nx.dijkstra_path_length`. -/
def weightedEdges2 : List (String × String × ℚ) :=
  G2.map (fun e => (e.1, e.2.1, e.2.2.1))

/-- The second script's high-risk list (source line 265). -/
def high_risk_accounts2 : List String := ["Offshore_X", "Offshore_Y"]

/-- The second script's distance loop for one account (source lines
271-282): fold over the high-risk accounts keeping the smaller finite
distance, starting from `float('inf')` = `none`; `NetworkXNoPath` is
ignored.  Note this loop runs for every account, high-risk ones included. -/
def minDistStep2 (E : List (String × String × ℚ)) (a : String)
    (md : Option ℚ) (off : String) : Option ℚ :=
  match dijkstra_path_length E a off with
  | none => md
  | some d =>
    match md with
    | none => some d
    | some m => if d < m then some d else md

/-- The second script's distance loop as a fold of `minDistStep2` over the
high-risk list, starting from `float('inf')` = `none`. -/
def minDist2 (E : List (String × String × ℚ)) (hr : List String) (a : String) :
    Option ℚ :=
  hr.foldl (minDistStep2 E a) none

/-- The second script's `risk_scores` dictionary (source lines 268-282):
each account mapped to its minimum distance (`none` = `inf`). -/
def riskScores2 (E : List (String × String × ℚ)) (accts hr : List String) :
    List (String × Option ℚ) :=
  accts.map (fun a => (a, minDist2 E hr a))

/-- The classification threshold (source line 288). -/
def THRESHOLD : ℚ := 0.05

/-- The comparison `risk_scores[account] < THRESHOLD` of source line 293:
a Python float compared against the threshold, where the distance may be
`float('inf')` (embedded `none`), and `inf < t` is false for every `t`. -/
def distLtB (d : Option ℚ) (t : ℚ) : Bool :=
  match d with
  | none => false
  | some x => decide (x < t)

/-- The classification rule of source line 293:
`1 if risk_scores[account] < THRESHOLD else 0`, with the threshold as a
parameter. -/
def classify (d : Option ℚ) (t : ℚ) : ℕ :=
  if distLtB d t then 1 else 0

/-- The second script's `predictions` dictionary (source lines 292-295),
with the threshold as a parameter (the script instantiates it with
`THRESHOLD`). -/
def predictions2 (E : List (String × String × ℚ)) (accts hr : List String)
    (t : ℚ) : List (String × ℕ) :=
  accts.map (fun a => (a, classify (minDist2 E hr a) t))

/-- The four cells of the confusion matrix of source line 303, counted over
the evaluated accounts in order `(TP, FP, TN, FN)`: sklearn's
`confusion_matrix(y_true, y_pred)` with labels `{0, 1}` tallies exactly
these four counts from the parallel label lists of lines 298-299. -/
def confusionStep (truth pred : String → ℕ) (c : ℕ × ℕ × ℕ × ℕ) (a : String) :
    ℕ × ℕ × ℕ × ℕ :=
  if truth a = 1 ∧ pred a = 1 then (c.1 + 1, c.2.1, c.2.2.1, c.2.2.2)
  else if truth a = 0 ∧ pred a = 1 then (c.1, c.2.1 + 1, c.2.2.1, c.2.2.2)
  else if truth a = 0 ∧ pred a = 0 then (c.1, c.2.1, c.2.2.1 + 1, c.2.2.2)
  else if truth a = 1 ∧ pred a = 0 then (c.1, c.2.1, c.2.2.1, c.2.2.2 + 1)
  else c

/-- The confusion matrix as the fold of `confusionStep` over the evaluated
accounts, starting from all-zero cells. -/
def confusionCounts (accts : List String) (truth pred : String → ℕ) :
    ℕ × ℕ × ℕ × ℕ :=
  accts.foldl (confusionStep truth pred) (0, 0, 0, 0)

/-- Total of the four confusion-matrix cells. -/
def cellSum (c : ℕ × ℕ × ℕ × ℕ) : ℕ := c.1 + c.2.1 + c.2.2.1 + c.2.2.2

/-- The predicted label of one account in the second script, looked up from
the `predictions` dictionary (source line 299). -/
def predLabel (a : String) : ℕ :=
  ((predictions2 weightedEdges2 accounts2 high_risk_accounts2 THRESHOLD).lookup a).getD 0

/-- The whole second script as a function of the externally supplied
ground-truth labels: it returns the risk-score table, the predictions, and
the confusion-matrix cells.  Only the last component reads the labels. -/
def script2 (gt : String → ℕ) :
    List (String × Option ℚ) × List (String × ℕ) × (ℕ × ℕ × ℕ × ℕ) :=
  (riskScores2 weightedEdges2 accounts2 high_risk_accounts2,
   predictions2 weightedEdges2 accounts2 high_risk_accounts2 THRESHOLD,
   confusionCounts accounts2 gt predLabel)

/-! ## Theorems -/

/-- C5: for all strictly positive `amount` and `frequency`, the suspicion
weighting returns `suspicion_score = amount * frequency` and
`weight = 1000 / suspicion_score`, the weight is strictly positive, and the
weight is strictly decreasing in the suspicion score. -/
theorem C5_weight_positive_and_strictly_decreasing :
    ∀ amount frequency : ℚ, 0 < amount → 0 < frequency →
      (suspicion_score amount frequency = amount * frequency ∧
       weight amount frequency = 1000 / suspicion_score amount frequency ∧
       0 < weight amount frequency) ∧
      (∀ amount2 frequency2 : ℚ, 0 < amount2 → 0 < frequency2 →
        suspicion_score amount frequency < suspicion_score amount2 frequency2 →
        weight amount2 frequency2 < weight amount frequency) := by
  intro a f ha hf
  have hs : 0 < suspicion_score a f := mul_pos ha hf
  refine ⟨⟨rfl, rfl, div_pos (by norm_num) hs⟩, ?_⟩
  intro a2 f2 ha2 hf2 hlt
  exact div_lt_div_of_pos_left (by norm_num) hs hlt

/-- Witness for C5 at `amount = 1, frequency = 1` against
`amount2 = 2, frequency2 = 1`. -/
theorem C5_witness : 0 < weight 1 1 ∧ weight 2 1 < weight 1 1 := by
  have h := C5_weight_positive_and_strictly_decreasing 1 1 (by norm_num) (by norm_num)
  exact ⟨h.1.2.2, h.2 2 1 (by norm_num) (by norm_num)
    (by norm_num [suspicion_score])⟩

/-- C4: the classifier labels fraud exactly when the risk distance is
strictly below the threshold (an infinite distance is never below it), the
threshold defaults to `0.05 = 1/20`, the predictions map applies the
classifier at the threshold, and the classifier is a pure function of the
pair `(distance, threshold)`. -/
theorem C4_classify_iff_distance_below_threshold :
    (∀ d t : ℚ, classify (some d) t = 1 ↔ d < t) ∧
    (∀ t : ℚ, classify none t = 0) ∧
    THRESHOLD = 1 / 20 ∧
    (∀ (E : List (String × String × ℚ)) (accts hr : List String) (t : ℚ),
      predictions2 E accts hr t =
        accts.map (fun a => (a, classify (minDist2 E hr a) t))) ∧
    (∀ (d1 d2 : Option ℚ) (t1 t2 : ℚ), d1 = d2 → t1 = t2 →
      classify d1 t1 = classify d2 t2) := by
  refine ⟨?_, ?_, ?_, ?_, ?_⟩
  · intro d t
    by_cases h : d < t <;> simp [classify, distLtB, h]
  · intro t
    simp [classify, distLtB]
  · norm_num [THRESHOLD]
  · intro E accts hr t
    rfl
  · intro d1 d2 t1 t2 hd ht
    rw [hd, ht]

/-- Witness for C4: a finite distance `1/100` below the default threshold
is classified fraud, an infinite distance is classified clean, and the
classifier is reproducible at that input. -/
theorem C4_witness :
    classify (some (1 / 100)) THRESHOLD = 1 ∧
    classify none THRESHOLD = 0 ∧
    classify (some (1 / 100)) THRESHOLD = classify (some (1 / 100)) THRESHOLD := by
  have h := C4_classify_iff_distance_below_threshold
  refine ⟨(h.1 (1 / 100) THRESHOLD).2 ?_, h.2.1 THRESHOLD,
    h.2.2.2.2 (some (1 / 100)) (some (1 / 100)) THRESHOLD THRESHOLD rfl rfl⟩
  rw [h.2.2.1]
  norm_num

/-- C2 counterexample: the transaction `(amount, frequency) = (-1, 1)` has
`amount ≤ 0`, yet `add_edge` does not take the error branch: it succeeds
and stores the negative edge weight `-1000`.  The edge-construction loops
of both scripts contain no validation at all. -/
theorem C2_counterexample :
    add_edge (-1) 1 =
      Except.ok
        { weight := -1000, monto := -1, frecuencia := 1, suspicion_score := -1 } ∧
    ({ weight := -1000, monto := -1, frecuencia := 1,
       suspicion_score := -1 } : EdgeData).weight < 0 := by
  constructor
  · norm_num [add_edge, suspicion_score, weight]
  · norm_num

/-- C2 amended: the edge-construction loop performs no input validation.
A transaction with `suspicion_score = amount * frequency = 0` makes the
weight computation fail with an uncaught `ZeroDivisionError` (not a handled
`InvalidTransaction` error); any transaction with a non-zero score is
accepted, and a negative amount with positive frequency silently produces a
negative edge weight. -/
theorem C2_amended_no_validation :
    ∀ monto frecuencia : ℚ,
      (suspicion_score monto frecuencia = 0 →
        add_edge monto frecuencia = Except.error "ZeroDivisionError") ∧
      (suspicion_score monto frecuencia ≠ 0 →
        add_edge monto frecuencia =
          Except.ok
            { weight := weight monto frecuencia, monto := monto,
              frecuencia := frecuencia,
              suspicion_score := suspicion_score monto frecuencia }) ∧
      (monto < 0 → 0 < frecuencia → weight monto frecuencia < 0) := by
  intro m f
  refine ⟨fun h => by simp [add_edge, h], fun h => by simp [add_edge, h], ?_⟩
  intro hm hf
  have hneg : suspicion_score m f < 0 := mul_neg_of_neg_of_pos hm hf
  exact div_neg_of_pos_of_neg (by norm_num) hneg

/-- Witness for C2 amended: a zero amount raises `ZeroDivisionError` and
the transaction `(-1, 1)` is accepted with a negative weight. -/
theorem C2_amended_witness :
    add_edge 0 5 = Except.error "ZeroDivisionError" ∧ weight (-1) 1 < 0 := by
  have h0 := C2_amended_no_validation 0 5
  have h1 := C2_amended_no_validation (-1) 1
  exact ⟨h0.1 (by norm_num [suspicion_score]),
    h1.2.2 (by norm_num) (by norm_num)⟩

/-- C8: the ground-truth labels never influence scoring: with the graph,
transactions, high-risk set and threshold fixed, any two ground-truth
mappings produce identical risk-distance tables and identical predictions;
only the confusion-matrix component of the pipeline reads the labels. -/
theorem C8_ground_truth_noninterference :
    ∀ gt1 gt2 : String → ℕ,
      (script2 gt1).1 = (script2 gt2).1 ∧
      (script2 gt1).2.1 = (script2 gt2).2.1 := by
  intro gt1 gt2
  exact ⟨rfl, rfl⟩

/-- C6 (code bug): on a graph with no directed path from `Cuenta_A` to
`Offshore_X` (here: the sample accounts with an empty transaction list),
the path-finding stage takes the `NetworkXNoPath` handler and binds
nothing, and the conclusions stage (source line 166) then reads the unbound
name `path` and crashes with `NameError` instead of completing. -/
theorem C6_no_path_crashes_conclusions :
    bestPath [] "Cuenta_A" "Offshore_X" = none ∧
    pathStage [] [] "Cuenta_A" "Offshore_X" = none ∧
    conclusions (pathStage [] [] "Cuenta_A" "Offshore_X") =
      Except.error "NameError: name 'path' is not defined" := by
  refine ⟨rfl, rfl, rfl⟩

/-- If every high-risk target is unreachable from `a`, the first script's
inner loop leaves its accumulator untouched. -/
theorem foldl_minDistStep1_of_no_path (E : List (String × String × ℚ)) (a : String) :
    ∀ (hr : List String) (acc : Option ℚ × Option String),
      (∀ r ∈ hr, dijkstra_path_length E a r = none) →
      hr.foldl (minDistStep1 E a) acc = acc := by
  intro hr
  induction hr with
  | nil => intro acc _; rfl
  | cons r rs ih =>
    intro acc h
    have hr0 : dijkstra_path_length E a r = none := h r (List.mem_cons_self r rs)
    rw [List.foldl_cons]
    have hstep : minDistStep1 E a acc r = acc := by simp [minDistStep1, hr0]
    rw [hstep]
    exact ih acc fun x hx => h x (List.mem_cons_of_mem r hx)

/-- Any entry produced by `riskEntry1` is keyed by the account itself, and
that account is not in the high-risk set. -/
theorem riskEntry1_shape (E : List (String × String × ℚ)) (hr : List String)
    (a : String) (p : String × RiskEntry) (h : riskEntry1 E hr a = some p) :
    p.1 = a ∧ a ∉ hr := by
  by_cases hmem : a ∈ hr
  · rw [riskEntry1, if_pos hmem] at h
    exact absurd h (by simp)
  · refine ⟨?_, hmem⟩
    rw [riskEntry1, if_neg hmem] at h
    rcases hm : minDistLoop E hr a with ⟨md, cl⟩
    rw [hm] at h
    cases md <;> simp_all <;> rw [← h]

/-- C3: an account outside the high-risk set with no directed path to any
high-risk account receives the entry `{risk_score = 0,
nearest_high_risk_account = None, distance = inf}` (the loop absorbs every
`NetworkXNoPath` and never raises), and accounts that are themselves
high-risk are excluded from the returned mapping. -/
theorem C3_unreachable_account_gets_zero_risk :
    ∀ (E : List (String × String × ℚ)) (accts hr : List String) (a : String),
      a ∈ accts → a ∉ hr →
      (∀ r ∈ hr, dijkstra_path_length E a r = none) →
      ((a, { puntaje_riesgo := 0, cuenta_cercana := none,
             distancia := none }) ∈ riskScores1 E accts hr) ∧
      ∀ b ∈ hr, ∀ e : RiskEntry, (b, e) ∉ riskScores1 E accts hr := by
  intro E accts hr a ha hnot hno
  constructor
  · rw [riskScores1, List.mem_filterMap]
    refine ⟨a, ha, ?_⟩
    rw [riskEntry1, if_neg hnot]
    have hloop : minDistLoop E hr a = (none, none) :=
      foldl_minDistStep1_of_no_path E a hr (none, none) hno
    rw [hloop]
  · intro b hb e hmem
    rw [riskScores1, List.mem_filterMap] at hmem
    obtain ⟨x, _, hfx⟩ := hmem
    obtain ⟨hbx, hxhr⟩ := riskEntry1_shape E hr x (b, e) hfx
    rw [show b = x from hbx] at hb
    exact hxhr hb

/-- Witness for C3: the account `Cuenta_Z` in a graph with no edges has no
path to the high-risk account `Offshore_H`; it gets the zero entry and the
high-risk account is excluded from the mapping. -/
theorem C3_witness :
    (("Cuenta_Z", { puntaje_riesgo := 0, cuenta_cercana := none,
                    distancia := none }) ∈
        riskScores1 [] ["Cuenta_Z"] ["Offshore_H"]) ∧
    ∀ b ∈ ["Offshore_H"], ∀ e : RiskEntry,
      (b, e) ∉ riskScores1 [] ["Cuenta_Z"] ["Offshore_H"] := by
  refine C3_unreachable_account_gets_zero_risk [] ["Cuenta_Z"] ["Offshore_H"]
    "Cuenta_Z" (by decide) (by decide) ?_
  intro r hr
  have : r = "Offshore_H" := by
    have := List.mem_singleton.mp hr
    exact this
  rw [this]
  rfl

/-- One step of the first script's loop projects onto one step of the
second script's loop. -/
theorem minDistStep1_fst (E : List (String × String × ℚ)) (a : String)
    (md : Option ℚ × Option String) (r : String) :
    (minDistStep1 E a md r).1 = minDistStep2 E a md.1 r := by
  cases hd : dijkstra_path_length E a r with
  | none => simp [minDistStep1, minDistStep2, hd]
  | some d =>
    cases hm : md.1 with
    | none => simp [minDistStep1, minDistStep2, hd, hm]
    | some m =>
      by_cases hlt : d < m <;> simp [minDistStep1, minDistStep2, hd, hm, hlt]

/-- The first component of the first script's fold equals the second
script's fold, for any starting accumulator. -/
theorem foldl_minDistStep1_fst (E : List (String × String × ℚ)) (a : String) :
    ∀ (hr : List String) (acc : Option ℚ × Option String),
      (hr.foldl (minDistStep1 E a) acc).1 =
        hr.foldl (minDistStep2 E a) acc.1 := by
  intro hr
  induction hr with
  | nil => intro acc; rfl
  | cons r rs ih =>
    intro acc
    rw [List.foldl_cons, List.foldl_cons, ih, minDistStep1_fst]

/-- The `min_distance` tracked by the first script equals the distance
computed by the second script. -/
theorem minDistLoop_fst (E : List (String × String × ℚ)) (hr : List String)
    (a : String) : (minDistLoop E hr a).1 = minDist2 E hr a :=
  foldl_minDistStep1_fst E a hr (none, none)

/-- The two scripts' graphs expose the same weighted edge list. -/
theorem weightedEdges2_eq : weightedEdges2 = weightedEdges1 := by
  simp [weightedEdges1, weightedEdges2, G1, G2, transactions, transactions2]

/-- C10: the two scripts build the same weighted graph from identical
account and transaction lists, and for every account outside the high-risk
set the `distancia` stored by the first script's risk table equals the
distance stored by the second script (`none` = infinity in both when no
path exists). -/
theorem C10_scripts_agree_on_risk_distance :
    accounts2 = accounts ∧ transactions2 = transactions ∧
    weightedEdges2 = weightedEdges1 ∧ high_risk_accounts2 = high_risk_accounts ∧
    ∀ a ∈ accounts, a ∉ high_risk_accounts →
      ∃ entry : RiskEntry,
        (a, entry) ∈ riskScores1 weightedEdges1 accounts high_risk_accounts ∧
        entry.distancia = minDist2 weightedEdges2 high_risk_accounts2 a := by
  refine ⟨rfl, rfl, weightedEdges2_eq, rfl, ?_⟩
  intro a ha hnot
  have hE2 : weightedEdges2 = weightedEdges1 := weightedEdges2_eq
  have hh2 : high_risk_accounts2 = high_risk_accounts := rfl
  have hkey : minDist2 weightedEdges2 high_risk_accounts2 a =
      (minDistLoop weightedEdges1 high_risk_accounts a).1 := by
    rw [hE2, hh2, minDistLoop_fst]
  rcases hm : minDistLoop weightedEdges1 high_risk_accounts a with ⟨md, cl⟩
  cases md with
  | none =>
    refine ⟨{ puntaje_riesgo := 0, cuenta_cercana := none, distancia := none },
      ?_, ?_⟩
    · rw [riskScores1, List.mem_filterMap]
      exact ⟨a, ha, by rw [riskEntry1, if_neg hnot, hm]⟩
    · rw [hkey, hm]
  | some m =>
    refine ⟨{ puntaje_riesgo := 1000 / m, cuenta_cercana := cl,
              distancia := some m }, ?_, ?_⟩
    · rw [riskScores1, List.mem_filterMap]
      exact ⟨a, ha, by rw [riskEntry1, if_neg hnot, hm]⟩
    · rw [hkey, hm]

/-- Witness for C10 at `Cuenta_A`: its first-script entry exists and its
`distancia` equals the second script's distance. -/
theorem C10_witness :
    ∃ entry : RiskEntry,
      ("Cuenta_A", entry) ∈
        riskScores1 weightedEdges1 accounts high_risk_accounts ∧
      entry.distancia = minDist2 weightedEdges2 high_risk_accounts2 "Cuenta_A" :=
  C10_scripts_agree_on_risk_distance.2.2.2.2 "Cuenta_A" (by decide) (by decide)

/-- The weighted shortest-path distance from a node to itself is `0`: the
only simple path is the trivial one. -/
theorem dijkstra_path_length_self (E : List (String × String × ℚ)) (a : String) :
    dijkstra_path_length E a a = some 0 := by
  have h : simplePaths E a a = [[a]] := by
    simp [simplePaths, simplePathsAux]
  rw [dijkstra_path_length, bestPath, h, List.foldl_cons, List.foldl_nil]
  rfl

/-- Once the second script's accumulator holds a non-positive distance, it
stays a non-positive distance. -/
theorem foldl_minDistStep2_nonpos (E : List (String × String × ℚ)) (a : String) :
    ∀ (hr : List String) (m0 : ℚ), m0 ≤ 0 →
      ∃ m : ℚ, hr.foldl (minDistStep2 E a) (some m0) = some m ∧ m ≤ 0 := by
  intro hr
  induction hr with
  | nil => intro m0 h; exact ⟨m0, rfl, h⟩
  | cons off rs ih =>
    intro m0 h
    rw [List.foldl_cons]
    cases hd : dijkstra_path_length E a off with
    | none =>
      rw [show minDistStep2 E a (some m0) off = some m0 from by
        simp [minDistStep2, hd]]
      exact ih m0 h
    | some d =>
      by_cases hlt : d < m0
      · rw [show minDistStep2 E a (some m0) off = some d from by
          simp [minDistStep2, hd, hlt]]
        exact ih d (le_of_lt (lt_of_lt_of_le hlt h))
      · rw [show minDistStep2 E a (some m0) off = some m0 from by
          simp [minDistStep2, hd, hlt]]
        exact ih m0 h

/-- If the account itself is among the targets, the second script's fold
returns a finite non-positive distance from any starting accumulator. -/
theorem foldl_minDistStep2_self_mem (E : List (String × String × ℚ)) (a : String) :
    ∀ (hr : List String) (acc : Option ℚ), a ∈ hr →
      ∃ m : ℚ, hr.foldl (minDistStep2 E a) acc = some m ∧ m ≤ 0 := by
  intro hr
  induction hr with
  | nil => intro acc h; exact absurd h (List.not_mem_nil a)
  | cons off rs ih =>
    intro acc hmem
    rw [List.foldl_cons]
    rcases List.mem_cons.mp hmem with heq | htail
    · rw [← heq]
      have hd : dijkstra_path_length E a a = some 0 :=
        dijkstra_path_length_self E a
      cases acc with
      | none =>
        rw [show minDistStep2 E a none a = some 0 from by simp [minDistStep2, hd]]
        exact foldl_minDistStep2_nonpos E a rs 0 le_rfl
      | some m0 =>
        by_cases hlt : (0 : ℚ) < m0
        · rw [show minDistStep2 E a (some m0) a = some 0 from by
            simp [minDistStep2, hd, hlt]]
          exact foldl_minDistStep2_nonpos E a rs 0 le_rfl
        · rw [show minDistStep2 E a (some m0) a = some m0 from by
            simp [minDistStep2, hd, hlt]]
          exact foldl_minDistStep2_nonpos E a rs m0 (not_lt.mp hlt)
    · exact ih (minDistStep2 E a acc off) htail

/-- A high-risk account's own minimum distance is finite and at most `0`. -/
theorem minDist2_self_nonpos (E : List (String × String × ℚ)) (hr : List String)
    (a : String) (h : a ∈ hr) :
    ∃ m : ℚ, minDist2 E hr a = some m ∧ m ≤ 0 :=
  foldl_minDistStep2_self_mem E a hr none h

/-- A finite non-positive distance is classified fraud at any positive
threshold. -/
theorem classify_nonpos (m t : ℚ) (hm : m ≤ 0) (ht : 0 < t) :
    classify (some m) t = 1 := by
  have hlt : m < t := lt_of_le_of_lt hm ht
  simp [classify, distLtB, hlt]

/-- C9: the classification loop does not skip high-risk accounts; a member
of the high-risk set has weighted shortest-path distance `0` to itself, so
for every strictly positive threshold it is predicted fraud. -/
theorem C9_high_risk_accounts_classified_fraud :
    ∀ (E : List (String × String × ℚ)) (accts hr : List String) (t : ℚ),
      0 < t → ∀ a ∈ accts, a ∈ hr → (a, 1) ∈ predictions2 E accts hr t := by
  intro E accts hr t ht a ha hahr
  obtain ⟨m, hm, hm0⟩ := minDist2_self_nonpos E hr a hahr
  have hc : classify (minDist2 E hr a) t = 1 := by
    rw [hm]
    exact classify_nonpos m t hm0 ht
  have hmem : (a, classify (minDist2 E hr a) t) ∈ predictions2 E accts hr t := by
    rw [predictions2]
    exact List.mem_map_of_mem _ ha
  rwa [hc] at hmem

/-- Witness for C9: `Offshore_X` is predicted fraud by the second script at
the default threshold. -/
theorem C9_witness :
    ("Offshore_X", 1) ∈
      predictions2 weightedEdges2 accounts2 high_risk_accounts2 THRESHOLD := by
  refine C9_high_risk_accounts_classified_fraud weightedEdges2 accounts2
    high_risk_accounts2 THRESHOLD ?_ "Offshore_X" (by decide) (by decide)
  norm_num [THRESHOLD]

/-- Each step of the confusion-matrix fold increments exactly one cell when
both labels are binary. -/
theorem foldl_confusionStep_sum (truth pred : String → ℕ) :
    ∀ (accts : List String) (init : ℕ × ℕ × ℕ × ℕ),
      (∀ a ∈ accts, (truth a = 0 ∨ truth a = 1) ∧ (pred a = 0 ∨ pred a = 1)) →
      cellSum (accts.foldl (confusionStep truth pred) init) =
        cellSum init + accts.length := by
  intro accts
  induction accts with
  | nil => intro init _; simp
  | cons a rest ih =>
    intro init h
    have ha := h a (List.mem_cons_self a rest)
    have hrest : ∀ x ∈ rest,
        (truth x = 0 ∨ truth x = 1) ∧ (pred x = 0 ∨ pred x = 1) :=
      fun x hx => h x (List.mem_cons_of_mem a hx)
    rw [List.foldl_cons, ih _ hrest]
    have hstep : cellSum (confusionStep truth pred init a) = cellSum init + 1 := by
      rcases ha.1 with h0 | h0 <;> rcases ha.2 with p0 | p0 <;>
        simp [confusionStep, cellSum, h0, p0] <;> omega
    rw [hstep, List.length_cons]
    omega

/-- C7: for binary predictions and ground truth over the evaluated account
list, the four confusion-matrix cells sum to the number of evaluated
accounts. -/
theorem C7_confusion_cells_sum_to_account_count :
    ∀ (accts : List String) (truth pred : String → ℕ),
      (∀ a ∈ accts, (truth a = 0 ∨ truth a = 1) ∧ (pred a = 0 ∨ pred a = 1)) →
      cellSum (confusionCounts accts truth pred) = accts.length := by
  intro accts truth pred h
  rw [confusionCounts, foldl_confusionStep_sum truth pred accts (0, 0, 0, 0) h]
  simp [cellSum]

/-- Witness for C7 over the second script's nine accounts (high-risk ones
included) with the hardcoded binary ground-truth labels. -/
theorem C7_witness :
    cellSum (confusionCounts accounts2 gtFun gtFun) = 9 := by
  have h := C7_confusion_cells_sum_to_account_count accounts2 gtFun gtFun (by decide)
  exact h.trans (by decide)

/-- On the sample graph there are exactly two simple routes from `Cuenta_A`
to `Offshore_X`: the high-value chain through `Cuenta_B`, `Cuenta_C` and
the low-value chain through `Cuenta_D`, `Cuenta_E`, `Cuenta_F`. -/
theorem simplePaths_sample :
    simplePaths weightedEdges1 "Cuenta_A" "Offshore_X" =
      [["Cuenta_A", "Cuenta_B", "Cuenta_C", "Offshore_X"],
       ["Cuenta_A", "Cuenta_D", "Cuenta_E", "Cuenta_F", "Offshore_X"]] := by
  decide

/-- Weight of the high-value chain: the sum of its three edge weights. -/
theorem pathWeight_sample_best :
    pathWeight weightedEdges1 ["Cuenta_A", "Cuenta_B", "Cuenta_C", "Offshore_X"] =
      some (weight 50000 5 + (weight 45000 4 + (weight 40000 3 + 0))) := rfl

/-- Weight of the low-value chain: the sum of its four edge weights. -/
theorem pathWeight_sample_alt :
    pathWeight weightedEdges1
        ["Cuenta_A", "Cuenta_D", "Cuenta_E", "Cuenta_F", "Offshore_X"] =
      some (weight 10000 1 + (weight 9000 1 + (weight 8000 1 + (weight 7000 1 + 0)))) :=
  rfl

/-- The high-value chain is strictly lighter than the low-value chain. -/
theorem pathWeight_lt_sample :
    weight 50000 5 + (weight 45000 4 + (weight 40000 3 + 0)) <
      weight 10000 1 + (weight 9000 1 + (weight 8000 1 + (weight 7000 1 + 0))) := by
  norm_num [weight, suspicion_score]

/-- The minimum-weight path from `Cuenta_A` to `Offshore_X` on the sample
graph is the high-value chain. -/
theorem bestPath_sample :
    bestPath weightedEdges1 "Cuenta_A" "Offshore_X" =
      some (["Cuenta_A", "Cuenta_B", "Cuenta_C", "Offshore_X"],
            weight 50000 5 + (weight 45000 4 + (weight 40000 3 + 0))) := by
  rw [bestPath, simplePaths_sample]
  simp only [List.foldl_cons, List.foldl_nil, pathWeight_sample_best,
    pathWeight_sample_alt]
  rw [if_neg (not_lt.2 (le_of_lt pathWeight_lt_sample))]

/-- C1: on the sample data, Dijkstra from `Cuenta_A` to `Offshore_X`
returns exactly `Cuenta_A → Cuenta_B → Cuenta_C → Offshore_X`, its
cumulative weight is the sum of those three edge weights, the total amount
transferred along it is `135000`, and every other simple route is strictly
heavier (so the minimiser is unique and no tie-break is involved). -/
theorem C1_most_suspicious_path :
    dijkstra_path weightedEdges1 "Cuenta_A" "Offshore_X" =
      some ["Cuenta_A", "Cuenta_B", "Cuenta_C", "Offshore_X"] ∧
    dijkstra_path_length weightedEdges1 "Cuenta_A" "Offshore_X" =
      some (weight 50000 5 + weight 45000 4 + weight 40000 3) ∧
    total_amount G1 ["Cuenta_A", "Cuenta_B", "Cuenta_C", "Offshore_X"] =
      some 135000 ∧
    ∀ p ∈ simplePaths weightedEdges1 "Cuenta_A" "Offshore_X",
      ∀ w : ℚ, pathWeight weightedEdges1 p = some w →
        p ≠ ["Cuenta_A", "Cuenta_B", "Cuenta_C", "Offshore_X"] →
        weight 50000 5 + weight 45000 4 + weight 40000 3 < w := by
  refine ⟨?_, ?_, ?_, ?_⟩
  · rw [dijkstra_path, bestPath_sample]
    rfl
  · rw [dijkstra_path_length, bestPath_sample]
    simp only [Option.map_some', Option.some.injEq]
    ring
  · rw [show total_amount G1 ["Cuenta_A", "Cuenta_B", "Cuenta_C", "Offshore_X"] =
        some ((50000 : ℚ) + (45000 + (40000 + 0))) from rfl]
    norm_num
  · intro p hp w hw hne
    rw [simplePaths_sample] at hp
    simp only [List.mem_cons, List.mem_singleton, List.not_mem_nil, or_false] at hp
    rcases hp with h1 | h2
    · exact absurd h1 hne
    · subst h2
      rw [pathWeight_sample_alt] at hw
      obtain rfl := Option.some.inj hw
      calc weight 50000 5 + weight 45000 4 + weight 40000 3
          = weight 50000 5 + (weight 45000 4 + (weight 40000 3 + 0)) := by ring
        _ < _ := pathWeight_lt_sample

/-- Witness for C1: the alternate chain through `Cuenta_D`, `Cuenta_E`,
`Cuenta_F` is an enumerated route and is strictly heavier than the returned
path's cumulative weight. -/
theorem C1_witness :
    weight 50000 5 + weight 45000 4 + weight 40000 3 <
      weight 10000 1 + (weight 9000 1 + (weight 8000 1 + (weight 7000 1 + 0))) :=
  C1_most_suspicious_path.2.2.2
    ["Cuenta_A", "Cuenta_D", "Cuenta_E", "Cuenta_F", "Offshore_X"]
    (by decide)
    (weight 10000 1 + (weight 9000 1 + (weight 8000 1 + (weight 7000 1 + 0))))
    rfl
    (by decide)

end AML
